import Mathlib

/-!
Verification of the interactive chat session of `pssst-chat.py` (class
`PssstChat`) against its natural-language specification.  The Python source is
shallowly embedded: strings are `List Char`, the mutable object state
(`self.buffer`, `self.halt`) is the structure `ChatState`, one turn of the
foreground read-eval loop in `run` is the function `runIter`, one iteration of
the background polling loop `__thread` is `threadStep`, and the external
collaborator calls (`self.pssst.push`, `self.pssst.pull`) are passed in as
`Except` results.  The chat runs under Python 2 (byte strings), so `\w`, `\W`,
`str.lower` and `str.strip` have their ASCII semantics, which is what the
character-level functions below implement.
-/

/-- Word character of the pattern `\w` (ASCII semantics of Python 2 `re`
without `re.UNICODE`): a letter, a digit or an underscore. -/
def isWordChar (c : Char) : Bool := c.isAlphanum || c = '_'

/-- The characters Python's `str.strip()` removes from both ends of a byte
string: space, tab, newline, carriage return, vertical tab, form feed. -/
def isPyWhitespace (c : Char) : Bool :=
  c = ' ' || c = '\t' || c = '\n' || c = '\r' || c = '\x0b' || c = '\x0c'

/-- Python `line.strip()` as used in `__prompt` (line 218 of the source):
drop the whitespace run at each end. -/
def pyStrip (l : List Char) : List Char :=
  ((l.dropWhile isPyWhitespace).reverse.dropWhile isPyWhitespace).reverse

/-- Python `line.lower()` (ASCII): lower-case every character. -/
def pyLower (l : List Char) : List Char := l.map Char.toLower

/-- Python `line.split(" ", 1)` (line 243 of the source): split at the first
occurrence of `sep` only; a string with no `sep` yields the one-element list. -/
def pySplitOnce (l : List Char) (sep : Char) : List (List Char) :=
  if sep ∈ l then [l.takeWhile (fun c => c ≠ sep), (l.dropWhile (fun c => c ≠ sep)).tail]
  else [l]

/-- Whether `re.match("^(pssst\.)?\w{2,63}\W+.+$", line)` succeeds, spelled
out as the existence of a decomposition `token ++ separator ++ rest` (after an
optional literal `pssst.` prefix, handled in `pssstPushMatch`): the token is
`i` word characters with `2 ≤ i ≤ 63`, the separator `j ≥ 1` non-word
characters, and the rest non-empty with no newline (the `.` class).  The
search over all split points makes the predicate executable. -/
def matchCore (l : List Char) : Bool :=
  (List.range (l.length + 1)).any fun i =>
    (List.range (l.length + 1)).any fun j =>
      decide (2 ≤ i) && decide (i ≤ 63) && decide ((l.take i).length = i) &&
      (l.take i).all isWordChar &&
      decide (1 ≤ j) && decide (((l.drop i).take j).length = j) &&
      ((l.drop i).take j).all (fun c => !(isWordChar c)) &&
      !((l.drop i).drop j).isEmpty &&
      ((l.drop i).drop j).all (fun c => !(c = '\n'))

/-- The full push-command pattern of line 242, `^(pssst\.)?\w{2,63}\W+.+$`:
either the core matches directly, or the line starts with the literal
`pssst.` and the core matches what follows it. -/
def pssstPushMatch (l : List Char) : Bool :=
  matchCore l || (decide (l.take 6 = "pssst.".toList) && matchCore (l.drop 6))

/-- `PssstChat.INTRO` (line 48 of the source). -/
def introLine : List Char :=
  "Type 'USERNAME ...' to send a message and 'exit' to exit.".toList

/-- An `"Error: %s" % ex` transcript line (lines 151 and 166 of the source). -/
def errorLine (cause : List Char) : List Char := "Error: ".toList ++ cause

/-- The line appended for unrecognized input (line 247 of the source). -/
def unknownCommandLine : List Char := "Error: Unknown command".toList

/-- The mutable state of a `PssstChat` object that the session logic touches:
`self.buffer` (the transcript, a list of display lines) and `self.halt`
(the shutdown flag).  The external `self.pssst` handle is a collaborator and
is modelled by passing its call results into the step functions. -/
structure ChatState where
  buffer : List (List Char)
  halt : Bool
  deriving DecidableEq

/-- The state `__init__` (lines 68-70) leaves behind when it does not raise:
`self.buffer = [PssstChat.INTRO, ""]`, `self.halt = False`. -/
def initState : ChatState := { buffer := [introLine, []], halt := false }

/-- `PssstChat.__init__(profile)` (lines 65-70): raise `Profile required`
when the profile tuple is empty/absent (falsy), otherwise produce the fresh
state.  The profile is a tuple of strings. -/
def mkChat (profile : List (List Char)) : Except (List Char) ChatState :=
  if profile = [] then Except.error ("Profile required".toList)
  else Except.ok initState

/-- Terminal-mode changes performed by `__enter__`'s curses setup
(lines 108-110 of the source). -/
inductive TermEvent
  | noecho
  | cbreak
  | keypadOn
  deriving DecidableEq

/-- `__enter__` (lines 84-122): acquire the terminal surface, producing the
raw-mode events; the chat state itself is unchanged. -/
def chatEnter (s : ChatState) : ChatState × List TermEvent :=
  (s, [TermEvent.noecho, TermEvent.cbreak, TermEvent.keypadOn])

/-- The construction part of `main` (line 284, `with PssstChat(...) as chat`):
run `__init__`, and only when it does not raise, run `__enter__`.  A
construction failure therefore yields an error before any terminal event. -/
def chatMain (profile : List (List Char)) :
    Except (List Char) (ChatState × List TermEvent) :=
  match mkChat profile with
  | Except.error e => Except.error e
  | Except.ok s => Except.ok (chatEnter s)

/-- The classification the `if/elif` chain of `run` (lines 234-247) gives one
input line. -/
inductive Command
  | ignore
  | exitCmd
  | pushCmd (args : List (List Char))
  | unknown
  deriving DecidableEq

/-- Whether a classification is the exit command. -/
def isExitCmd : Command → Bool
  | Command.exitCmd => true
  | _ => false

/-- Lines 234-247 of `run`: empty line is ignored; a line whose lower-casing
is `exit` exits; a line matching the push pattern is split at its first space
into the `push` arguments; anything else is unknown. -/
def classify (line : List Char) : Command :=
  if line = [] then Command.ignore
  else if pyLower line = "exit".toList then Command.exitCmd
  else if pssstPushMatch line then Command.pushCmd (pySplitOnce line ' ')
  else Command.unknown

/-- The observable outcome of one turn of the `while True` loop in `run`:
whether the loop returned (via `exit`), the object state afterwards, the
argument lists passed to `self.pssst.push`, and whether `exit` joined the
poller thread and cleared the screen (lines 249-257). -/
structure IterResult where
  halted : Bool
  state : ChatState
  pushes : List (List (List Char))
  joined : Bool
  cleared : Bool
  deriving DecidableEq

/-- One turn of the read-eval loop of `run` (lines 229-247) on an
already-stripped input line.  `pushRes` is the outcome of the external
`self.pssst.push` call, whose failure `__pssst_push` (lines 148-151) turns
into an `Error: <cause>` transcript line. -/
def runIter (s : ChatState) (line : List Char) (pushRes : Except (List Char) Unit) :
    IterResult :=
  match classify line with
  | Command.ignore => ⟨false, s, [], false, false⟩
  | Command.exitCmd => ⟨true, { s with halt := true }, [], true, true⟩
  | Command.pushCmd args =>
      ⟨false,
        { s with buffer :=
            match pushRes with
            | Except.ok _ => s.buffer
            | Except.error e => s.buffer ++ [errorLine e] },
        [args], false, false⟩
  | Command.unknown =>
      ⟨false, { s with buffer := s.buffer ++ [unknownCommandLine] }, [], false, false⟩

/-- Python `range(0, stop, step)`: the multiples of `step` below `stop`,
in order. -/
def pyRangeStep (stop step : Nat) : List Nat :=
  (List.range ((stop + step - 1) / step)).map (fun k => k * step)

/-- Lines 181-182 of `__thread`: `chunks = range(0, len(data), self.width)`
and `[data[i:i + self.width] for i in chunks]` — the fixed-width wrapping of
one decoded message into display lines. -/
def wrapLines (data : List Char) (width : Nat) : List (List Char) :=
  (pyRangeStep data.length width).map (fun i => (data.drop i).take width)

/-- `__pssst_pull` (lines 153-166): on success hand the pulled messages back;
on failure append one `Error: <cause>` line to the transcript and return
`None`. -/
def pullModel (buffer : List (List Char))
    (res : Except (List Char) (List (List Char))) :
    List (List Char) × Option (List (List Char)) :=
  match res with
  | Except.ok msgs => (buffer, some msgs)
  | Except.error e => (buffer ++ [errorLine e], none)

/-- One iteration of the polling loop `__thread` (lines 177-185), with the
external `pull` outcome passed in and messages already utf-8 decoded: run
`__pssst_pull`, iterate over its result `or []`, wrapping each message and
extending the transcript; also report how many messages were processed.
The iteration never writes `self.halt`. -/
def threadStep (width : Nat) (s : ChatState)
    (res : Except (List Char) (List (List Char))) : ChatState × Nat :=
  let p := pullModel s.buffer res
  let msgs := p.2.getD []
  ({ s with buffer := msgs.foldl (fun b data => b ++ wrapLines data width) p.1 },
    msgs.length)

/-- The loop condition of `__thread` (line 177): iterate `while not self.halt`. -/
def threadGuard (s : ChatState) : Bool := !s.halt

/-- The tail-window read of `__render` (line 193),
`self.buffer[-(self.height - 2):]`, for a non-negative window size `n`:
Python's `l[-n:]` is the last `min n (length l)` elements when `n ≥ 1`, but
`l[-0:]` is `l[0:]`, the whole list. -/
def pyTail {α : Type} (l : List α) (n : Nat) : List α :=
  if n = 0 then l else l.drop (l.length - n)

/-! ## Helper lemmas about the wrapping step -/

/-- The comprehension of line 182 collapsed to one map over chunk indices. -/
theorem wrapLines_eq_map (data : List Char) (w : Nat) :
    wrapLines data w =
      (List.range ((data.length + w - 1) / w)).map
        (fun k => (data.drop (k * w)).take w) := by
  simp only [wrapLines, pyRangeStep, List.map_map]
  rfl

theorem wrapLines_length (data : List Char) (w : Nat) :
    (wrapLines data w).length = (data.length + w - 1) / w := by
  simp [wrapLines, pyRangeStep]

theorem wrapLines_nil (w : Nat) : wrapLines [] w = [] := by
  have h : (w - 1) / w = 0 := by
    rcases Nat.eq_zero_or_pos w with h | h
    · subst h; rfl
    · exact Nat.div_eq_of_lt (by omega)
  simp [wrapLines, pyRangeStep, h]

theorem wrapLines_cons (data : List Char) (w : Nat) (hw : 1 ≤ w)
    (hd : data ≠ []) :
    wrapLines data w = data.take w :: wrapLines (data.drop w) w := by
  have hL : 1 ≤ data.length := List.length_pos.mpr hd
  have hcount : (data.length + w - 1) / w = ((data.length - w) + w - 1) / w + 1 := by
    rcases le_or_lt w data.length with h | h
    · have heq : data.length + w - 1 = ((data.length - w) + w - 1) + w := by omega
      rw [heq, Nat.add_div_right _ (by omega)]
    · have h1 : data.length - w = 0 := by omega
      have hlhs : (data.length + w - 1) / w = 1 :=
        Nat.div_eq_of_lt_le (by omega) (by omega)
      have hrhs : (0 + w - 1) / w = 0 := Nat.div_eq_of_lt (by omega)
      rw [h1, hlhs, hrhs]
  rw [wrapLines_eq_map, wrapLines_eq_map, List.length_drop, hcount,
    List.range_succ_eq_map, List.map_cons, List.map_map]
  congr 1
  · simp
  · apply List.map_congr_left
    intro k _
    simp only [Function.comp_apply, List.drop_drop]
    rw [Nat.succ_mul, Nat.add_comm w (k * w)]

theorem wrapLines_flatten (w : Nat) (hw : 1 ≤ w) (data : List Char) :
    (wrapLines data w).flatten = data := by
  have H : ∀ n (data : List Char), data.length ≤ n →
      (wrapLines data w).flatten = data := by
    intro n
    induction n with
    | zero =>
      intro data h
      have hnil : data = [] := by
        cases data with
        | nil => rfl
        | cons a l => simp at h
      subst hnil
      simp [wrapLines_nil]
    | succ n ih =>
      intro data h
      by_cases hd : data = []
      · subst hd; simp [wrapLines_nil]
      · have hL : 1 ≤ data.length := List.length_pos.mpr hd
        rw [wrapLines_cons data w hw hd, List.flatten_cons,
          ih (data.drop w) (by rw [List.length_drop]; omega),
          List.take_append_drop]
  exact H data.length data le_rfl

theorem wrap_count_bounds (L w : Nat) (hw : 1 ≤ w) :
    L ≤ w * ((L + w - 1) / w) ∧ w * ((L + w - 1) / w) < L + w := by
  have hdm := Nat.div_add_mod (L + w - 1) w
  have hmlt : (L + w - 1) % w < w := Nat.mod_lt _ (by omega)
  obtain ⟨P, hP⟩ : ∃ P, w * ((L + w - 1) / w) = P := ⟨_, rfl⟩
  obtain ⟨R, hR⟩ : ∃ R, (L + w - 1) % w = R := ⟨_, rfl⟩
  rw [hP, hR] at hdm
  rw [hR] at hmlt
  rw [hP]
  omega

theorem wrapLines_getD (data : List Char) (w i : Nat)
    (h : i < (wrapLines data w).length) :
    (wrapLines data w).getD i [] = (data.drop (i * w)).take w := by
  rw [wrapLines_length] at h
  rw [wrapLines_eq_map,
    List.getD_eq_getElem _ _ (by simpa using h),
    List.getElem_map, List.getElem_range]

/-! ## Claim theorems -/

/-- C4: for every decoded message text and terminal width `W ≥ 1`, the
wrapping step of `__thread` (lines 181-182) produces exactly `ceil(L/W)`
display lines — their count is `(L + W - 1) / W`, the least number of
`W`-sized chunks covering `L` characters — each of length `W` except possibly
the last (every chunk is at most `W` long, and every chunk before the last is
exactly `W` long), and their concatenation in order is the original text. -/
theorem claim_C4_wrap_roundtrip (data : List Char) (w : Nat) (hw : 1 ≤ w) :
    (wrapLines data w).length = (data.length + w - 1) / w ∧
    data.length ≤ w * (wrapLines data w).length ∧
    w * (wrapLines data w).length < data.length + w ∧
    (wrapLines data w).flatten = data ∧
    (∀ chunk ∈ wrapLines data w, chunk.length ≤ w) ∧
    (∀ i, i + 1 < (wrapLines data w).length →
      ((wrapLines data w).getD i []).length = w) := by
  have hbounds := wrap_count_bounds data.length w hw
  refine ⟨wrapLines_length data w, ?_, ?_, wrapLines_flatten w hw data, ?_, ?_⟩
  · rw [wrapLines_length]; exact hbounds.1
  · rw [wrapLines_length]; exact hbounds.2
  · intro chunk hc
    rw [wrapLines_eq_map] at hc
    simp only [List.mem_map, List.mem_range] at hc
    obtain ⟨k, _, rfl⟩ := hc
    simp [List.length_take]
  · intro i hi
    rw [wrapLines_getD data w i (by omega)]
    rw [wrapLines_length] at hi
    have h1 : i + 2 ≤ (data.length + w - 1) / w := by omega
    have h2 : w * (i + 2) ≤ w * ((data.length + w - 1) / w) :=
      Nat.mul_le_mul_left w h1
    have h3 : w * (i + 2) = w * i + w + w := by ring
    have h4 : w + i * w ≤ data.length := by
      have hcomm : i * w = w * i := Nat.mul_comm i w
      rw [h3] at h2
      obtain ⟨A, hA⟩ : ∃ A, w * i = A := ⟨_, rfl⟩
      obtain ⟨P, hP⟩ : ∃ P, w * ((data.length + w - 1) / w) = P := ⟨_, rfl⟩
      rw [hA, hP] at h2
      rw [hP] at hbounds
      rw [hcomm, hA]
      omega
    rw [List.length_take, List.length_drop]
    obtain ⟨B, hB⟩ : ∃ B, i * w = B := ⟨_, rfl⟩
    rw [hB] at h4 ⊢
    omega

/-- C4 witness: wrapping `"abcde"` at width 2 gives three lines whose
concatenation restores the text. -/
theorem claim_C4_wrap_roundtrip_witness :
    (wrapLines ("abcde".toList) 2).length = (("abcde".toList).length + 2 - 1) / 2 ∧
    (wrapLines ("abcde".toList) 2).flatten = "abcde".toList :=
  ⟨(claim_C4_wrap_roundtrip ("abcde".toList) 2 (by decide)).1,
    (claim_C4_wrap_roundtrip ("abcde".toList) 2 (by decide)).2.2.2.1⟩

/-- C5 counterexample: the claim quantifies over every window size `n`, but at
`n = 0` the slice of line 193, `self.buffer[-0:]`, is the whole buffer — on a
one-line buffer (`k = 1 ≥ n = 0`) the code returns one line where the claim's
"the last n lines" demands zero. -/
theorem claim_C5_counterexample :
    pyTail [("a".toList)] 0 = [("a".toList)] ∧
    (pyTail [("a".toList)] 0).length = 1 := by
  exact ⟨rfl, rfl⟩

/-- C5 amended: for every buffer and every window size `n ≥ 1`, the tail
window of `__render` (line 193) is a suffix of the buffer — so its lines are
the last ones, in arrival order — of length `n` when the buffer has at least
`n` lines and of length `k` otherwise; when `k < n` it is the whole buffer.
(The amendment excludes `n = 0`, where Python's `buffer[-0:]` returns the
entire buffer instead of the last 0 lines.) -/
theorem claim_C5_tail_window (l : List (List Char)) (n : Nat) (hn : 1 ≤ n) :
    pyTail l n <:+ l ∧ (pyTail l n).length = min n l.length ∧
    (l.length < n → pyTail l n = l) := by
  have hn0 : n ≠ 0 := by omega
  refine ⟨?_, ?_, ?_⟩
  · simp only [pyTail, hn0, if_false]
    exact List.drop_suffix _ _
  · simp only [pyTail, hn0, if_false, List.length_drop]
    omega
  · intro hk
    simp only [pyTail, hn0, if_false]
    rw [Nat.sub_eq_zero_of_le (Nat.le_of_lt hk), List.drop_zero]

/-- C5 witness: on a two-line buffer with window size 1, the tail is the last
line. -/
theorem claim_C5_tail_window_witness :
    pyTail [("a".toList), ("b".toList)] 1 <:+ [("a".toList), ("b".toList)] ∧
    (pyTail [("a".toList), ("b".toList)] 1).length =
      min 1 ([("a".toList), ("b".toList)]).length :=
  ⟨(claim_C5_tail_window [("a".toList), ("b".toList)] 1 (by decide)).1,
    (claim_C5_tail_window [("a".toList), ("b".toList)] 1 (by decide)).2.1⟩

/-- C3: when `pull()` fails with cause `c`, one iteration of `__thread`
(lines 177-185) via `__pssst_pull` (lines 163-166) appends exactly the one
line `Error: <c>` to the buffer, processes zero messages (the `None` result
is replaced by `[]` through `or []`), and leaves the halt flag — hence the
loop condition `while not self.halt` — unchanged, so the polling loop goes on
to its next iteration instead of terminating. -/
theorem claim_C3_pull_failure (width : Nat) (s : ChatState) (cause : List Char) :
    (threadStep width s (Except.error cause)).1.buffer
      = s.buffer ++ [errorLine cause] ∧
    (threadStep width s (Except.error cause)).2 = 0 ∧
    (threadStep width s (Except.error cause)).1.halt = s.halt ∧
    threadGuard (threadStep width s (Except.error cause)).1 = threadGuard s := by
  exact ⟨rfl, rfl, rfl, rfl⟩

/-- C7: `self.halt` is `False` at construction (line 70); across every
foreground loop turn the new flag is the old one or-ed with "the line was the
exit command" — so the only write sets it to `true`, exactly when exit is
issued, and no operation resets it; the background iteration never writes it;
and the poller's loop condition (line 177) is the negation of the flag, so a
`true` flag admits no further iterations. -/
theorem claim_C7_halt_monotone :
    initState.halt = false ∧
    (∀ (s : ChatState) (line : List Char) (pushRes : Except (List Char) Unit),
      (runIter s line pushRes).state.halt
        = (s.halt || isExitCmd (classify line))) ∧
    (∀ (width : Nat) (s : ChatState) (res : Except (List Char) (List (List Char))),
      (threadStep width s res).1.halt = s.halt) ∧
    (∀ s : ChatState, threadGuard s = !s.halt) := by
  refine ⟨rfl, ?_, fun width s res => rfl, fun s => rfl⟩
  intro s line pushRes
  cases h : classify line <;> simp [runIter, h, isExitCmd]

/-- C6: an input line that after stripping lower-cases to `exit` makes the
loop turn return through `exit()` (lines 238-239, 249-257): the halt flag is
set, the poller thread joined, the screen cleared; no `push` call and no
buffer append happens on that turn. -/
theorem claim_C6_exit_command (s : ChatState) (pushRes : Except (List Char) Unit)
    (raw : List Char) (h : pyLower (pyStrip raw) = "exit".toList) :
    runIter s (pyStrip raw) pushRes
      = ⟨true, { s with halt := true }, [], true, true⟩ := by
  have hne : pyStrip raw ≠ [] := by
    intro hnil
    rw [hnil] at h
    simp [pyLower] at h
  simp [runIter, classify, hne, h]

/-- C6 witness: the spec's example input `EXIT` terminates the session. -/
theorem claim_C6_exit_command_witness :
    runIter initState (pyStrip ("EXIT".toList)) (Except.ok ())
      = ⟨true, { initState with halt := true }, [], true, true⟩ :=
  claim_C6_exit_command initState (Except.ok ()) ("EXIT".toList) (by decide)

/-- C9: a non-empty line that is not case-insensitively `exit` and does not
match the push pattern takes the `else` branch of `run` (lines 246-247):
exactly the one line `Error: Unknown command` is appended and no `push`
happens. -/
theorem claim_C9_unknown_command (s : ChatState) (pushRes : Except (List Char) Unit)
    (line : List Char) (h1 : line ≠ []) (h2 : pyLower line ≠ "exit".toList)
    (h3 : pssstPushMatch line = false) :
    runIter s line pushRes
      = ⟨false, { s with buffer := s.buffer ++ [unknownCommandLine] },
          [], false, false⟩ := by
  have h2' : pyLower line ≠ ['e', 'x', 'i', 't'] := by simpa using h2
  simp [runIter, classify, h1, h2', h3]

/-- C9 witness: the spec's example `a` (receiver below the 2-character
minimum) is an unknown command. -/
theorem claim_C9_unknown_command_witness :
    runIter initState ("a".toList) (Except.ok ())
      = ⟨false, { initState with buffer := initState.buffer ++ [unknownCommandLine] },
          [], false, false⟩ :=
  claim_C9_unknown_command initState (Except.ok ()) ("a".toList)
    (by decide) (by decide) (by decide)

/-- C1 counterexample: on the claim's own example `pssst.alice: hi` the code
invokes `push` with receiver `pssst.alice:` — the colon is kept, because line
243 splits at the first space (`line.split(" ", 1)`) rather than at the
pattern's non-word separator — and `pssst.alice:` is not the claimed receiver
`pssst.alice` (their Boolean comparison is `false`). -/
theorem claim_C1_counterexample :
    (runIter initState ("pssst.alice: hi".toList) (Except.ok ())).pushes
      = [["pssst.alice:".toList, "hi".toList]] ∧
    (("pssst.alice:".toList == "pssst.alice".toList) = false) := by
  exact ⟨by decide, by decide⟩

/-- C1 amended: for every input line matching the command pattern that
contains a space, the session invokes `push(receiver, message)` where the
receiver is the text before the line's first space and the message is the
text after it (so `alice hello there` yields
`push("alice", "hello there")`, while a separator other than a single space
is kept inside the receiver, e.g. `pssst.alice: hi` yields
`push("pssst.alice:", "hi")`; a matching line with no space leaves the
argument list a single element, and the call fails on arity). -/
theorem claim_C1_push_split (s : ChatState) (pushRes : Except (List Char) Unit)
    (line : List Char) (h1 : line ≠ []) (h2 : pyLower line ≠ "exit".toList)
    (h3 : pssstPushMatch line = true) (h4 : ' ' ∈ line) :
    (runIter s line pushRes).pushes
      = [[line.takeWhile (fun c => c ≠ ' '),
          (line.dropWhile (fun c => c ≠ ' ')).tail]] := by
  have h2' : pyLower line ≠ ['e', 'x', 'i', 't'] := by simpa using h2
  simp [runIter, classify, h1, h2', h3, pySplitOnce, h4]

/-- C1 amended witness: the claim's space-separated example
`alice hello there` pushes receiver `alice` and message `hello there`. -/
theorem claim_C1_push_split_witness :
    (runIter initState ("alice hello there".toList) (Except.ok ())).pushes
      = [["alice".toList, "hello there".toList]] := by
  rw [claim_C1_push_split initState (Except.ok ()) ("alice hello there".toList)
    (by decide) (by decide) (by decide) (by decide)]
  decide

/-- C8: constructing the chat with an empty/absent profile fails with
`Profile required` (lines 65-66) before `__enter__` runs, so no terminal-mode
event is ever produced on that path; with a non-empty profile this error is
not raised and the flow reaches the terminal setup of `__enter__`
(lines 108-110). -/
theorem claim_C8_profile_required :
    chatMain [] = Except.error ("Profile required".toList) ∧
    (∀ p : List (List Char), p ≠ [] →
      chatMain p
        = Except.ok (initState,
            [TermEvent.noecho, TermEvent.cbreak, TermEvent.keypadOn])) := by
  constructor
  · rfl
  · intro p hp
    simp [chatMain, mkChat, hp, chatEnter]

/-- C8 witness: a one-entry profile tuple constructs without the error. -/
theorem claim_C8_profile_required_witness :
    chatMain [("user".toList)]
      = Except.ok (initState,
          [TermEvent.noecho, TermEvent.cbreak, TermEvent.keypadOn]) :=
  claim_C8_profile_required.2 [("user".toList)] (by decide)

/-- C10: immediately after construction with a non-empty profile the
transcript buffer is exactly the intro help line followed by one empty line
(line 68), so it has two lines and never starts empty. -/
theorem claim_C10_intro_buffer (p : List (List Char)) (hp : p ≠ []) :
    mkChat p = Except.ok initState ∧
    initState.buffer
      = [("Type 'USERNAME ...' to send a message and 'exit' to exit.".toList),
          []] ∧
    initState.buffer.length = 2 := by
  refine ⟨by simp [mkChat, hp], rfl, rfl⟩

/-- C10 witness: construction from a one-entry profile yields the two-line
intro transcript. -/
theorem claim_C10_intro_buffer_witness :
    mkChat [("user".toList)] = Except.ok initState ∧
    initState.buffer
      = [("Type 'USERNAME ...' to send a message and 'exit' to exit.".toList),
          []] ∧
    initState.buffer.length = 2 :=
  claim_C10_intro_buffer [("user".toList)] (by decide)
